import Mathlib

/-!
Verification of the Pleroma streaming WebSocket client
(`src/pleroma/web_socket.rs` of megalodon-rs).

The development shallowly embeds the connection-lifecycle state machine and
the message decoder:

* wire frames (`tokio_tungstenite::tungstenite::protocol::Message`) become
  the inductive `WSFrame`; a close frame carries an optional status code
  (`CloseCode::Normal` is 1000);
* `serde_json` envelope parsing and the Status / Notification / Conversation
  entity decoders live outside this file's source and are treated as
  external collaborators: a `Collab` record of total functions
  `String → Except String _`;
* the session read loop (`WebSocket::do_connect`) is modelled as a function
  over a finite script of read results (`ReadEvent`), returning the session
  outcome (if the script reaches one), the events delivered to the sink in
  order, and the control frames whose sending was attempted;
* the supervisor loop (`WebSocket::connect`) is modelled over a script of
  session outcomes, recording the number of attempts, the number of tokio
  `Runtime::new()` constructions, and the sleeps performed between attempts.
-/

namespace Megalodon

/-- Reconnect interval in milliseconds (`RECONNECT_INTERVAL` in the source). -/
def RECONNECT_INTERVAL : Nat := 5000

/-- Read timeout in seconds (`READ_MESSAGE_TIMEOUT_SECONDS` in the source). -/
def READ_MESSAGE_TIMEOUT_SECONDS : Nat := 60

/-- A wire frame, embedding `tungstenite::protocol::Message`.
A close frame's optional payload is reduced to its status code (`Nat`),
since the reason text is never inspected by the source. -/
inductive WSFrame where
  | text (s : String)
  | binary (data : List Nat)
  | ping (payload : List Nat)
  | pong (payload : List Nat)
  | close (code : Option Nat)
deriving DecidableEq, Repr

/-- `Message::is_ping`. -/
def WSFrame.is_ping : WSFrame → Bool
  | .ping _ => true
  | _ => false

/-- `Message::is_pong`. -/
def WSFrame.is_pong : WSFrame → Bool
  | .pong _ => true
  | _ => false

/-- `Message::is_text`. -/
def WSFrame.is_text : WSFrame → Bool
  | .text _ => true
  | _ => false

/-- `Message::is_close`. -/
def WSFrame.is_close : WSFrame → Bool
  | .close _ => true
  | _ => false

/-- `tungstenite::protocol::frame::coding::CloseCode::Normal` is code 1000. -/
def CloseCode.Normal : Nat := 1000

/-- The outer wire envelope, embedding the `RawMessage` deserialize target:
`{ event: String, payload: String }`. -/
structure RawMessage where
  event : String
  payload : String
deriving DecidableEq, Repr

/-- `crate::error::Kind` — only the `ParseError` variant is used by this file.
Modelled from the spec: `crate::error` is not under the verified sources; the
spec calls every decoder-level failure `ParseFailure`. -/
inductive Kind where
  | ParseError
deriving DecidableEq, Repr

/-- `crate::error::Error`, reduced to the fields this file observes.
Modelled from the spec: constructed by `Error::new_own(msg, Kind::ParseError,
None, None)` or by conversion from a `serde_json` error. -/
structure Error where
  message : String
  kind : Kind
deriving DecidableEq, Repr

/-- `Error::new_own` with the two trailing `None` arguments dropped. -/
def Error.new_own (message : String) (kind : Kind) : Error :=
  ⟨message, kind⟩

/-- The `From<serde_json::Error>` conversion applied by the `?` operator;
the serde error is carried as its display string. -/
def Error.fromSerde (e : String) : Error :=
  ⟨e, Kind.ParseError⟩

/-- `crate::streaming::Message` — the event union delivered to the sink.
The entity types Status / Notification / Conversation are out of scope
(external collaborators), so the union is parametric in them. -/
inductive Message (S N Cv : Type) where
  | Heartbeat
  | Update (status : S)
  | Notification (n : N)
  | Conversation (c : Cv)
  | Delete (id : String)
deriving DecidableEq, Repr

/-- The external decoding collaborators: `serde_json::from_str` at the
envelope type `RawMessage` and at the three entity types. Each is an
arbitrary total function into `Except`; the theorems hold for every choice. -/
structure Collab (S N Cv : Type) where
  fromStrRaw : String → Except String RawMessage
  fromStrStatus : String → Except String S
  fromStrNotification : String → Except String N
  fromStrConversation : String → Except String Cv

/-- `WebSocket` struct: endpoint configuration. -/
structure WebSocket where
  url : String
  stream : String
  params : Option (List String)
  access_token : Option String
deriving DecidableEq, Repr

/-- `WebSocket::parse`: classify one wire frame.
Ping/pong frames yield `Heartbeat` before any payload inspection; a text
frame is envelope-parsed and dispatched on its `event` tag; anything else
is a parse error. Mirrors lines 50–109 of the source. -/
def WebSocket.parse (C : Collab S N Cv) (message : WSFrame) :
    Except Error (Message S N Cv) :=
  if message.is_ping || message.is_pong then
    .ok .Heartbeat
  else
    match message with
    | .text text =>
      match C.fromStrRaw text with
      | .error e => .error (Error.fromSerde e)
      | .ok mes =>
        match mes.event with
        | "update" =>
          match C.fromStrStatus mes.payload with
          | .error e => .error (Error.fromSerde e)
          | .ok res => .ok (.Update res)
        | "notification" =>
          match C.fromStrNotification mes.payload with
          | .error e => .error (Error.fromSerde e)
          | .ok res => .ok (.Notification res)
        | "conversation" =>
          match C.fromStrConversation mes.payload with
          | .error e => .error (Error.fromSerde e)
          | .ok res => .ok (.Conversation res)
        | "delete" => .ok (.Delete mes.payload)
        | event =>
          .error (Error.new_own ("Unknown event is received: " ++ event)
            Kind.ParseError)
    | _ =>
      .error (Error.new_own "Receiving message is not ping, pong or text"
        Kind.ParseError)

/-- `InnerKind`: the session-fatal failure kinds. -/
inductive InnerKind where
  | ConnectionError
  | SocketReadError
  | UnusualSocketCloseError
  | TimeoutError
deriving DecidableEq, Repr

/-- One result of the timed read
`tokio::time::timeout(60 s, socket.next())` inside the read loop:
the timeout elapses, the stream yields `None` (empty response),
the read errors, or a frame arrives. A frame event also carries the
environment's answer to whatever best-effort send the frame triggers
(pong reply or close acknowledgement); the source discards that answer. -/
inductive ReadEvent where
  | timeout
  | streamEnd
  | readError
  | frame (f : WSFrame) (sendOk : Bool)
deriving DecidableEq, Repr

/-- A control-frame send attempted by the read loop. -/
inductive SendAction where
  | pong (payload : List Nat)
  | closeAck
deriving DecidableEq, Repr

/-- Observable result of running the read loop on a script:
the outcome (`none` when the script is exhausted with the loop still
running; `some (.ok ())` is a clean stop; `some (.error k)` a retryable
failure), the events passed to the sink callback in call order, and the
send attempts in order. -/
structure SessionRun (S N Cv : Type) where
  outcome : Option (Except InnerKind Unit)
  delivered : List (Message S N Cv)
  sent : List SendAction
deriving Repr

/-- The read loop of `WebSocket::do_connect` (source lines 153–201), run on
a finite script of read results. Each iteration: a timeout ends the session
with `TimeoutError`; an empty read logs and continues; a read error ends
with `SocketReadError`; a ping frame triggers a best-effort empty pong; a
close frame triggers a best-effort close ack and ends the session —
`UnusualSocketCloseError` when it carries a code other than normal (1000),
a clean stop otherwise; every remaining frame goes through `parse`, a
success is passed to the callback, a failure is logged and the loop
continues. -/
def readLoop (C : Collab S N Cv) : List ReadEvent → SessionRun S N Cv
  | [] => ⟨none, [], []⟩
  | .timeout :: _ => ⟨some (.error .TimeoutError), [], []⟩
  | .streamEnd :: rest => readLoop C rest
  | .readError :: _ => ⟨some (.error .SocketReadError), [], []⟩
  | .frame f _sendOk :: rest =>
    let pongSent : List SendAction := if f.is_ping then [.pong []] else []
    if f.is_close then
      match f with
      | .close (some code) =>
        if code ≠ CloseCode.Normal then
          ⟨some (.error .UnusualSocketCloseError), [], pongSent ++ [.closeAck]⟩
        else
          ⟨some (.ok ()), [], pongSent ++ [.closeAck]⟩
      | _ => ⟨some (.ok ()), [], pongSent ++ [.closeAck]⟩
    else
      match WebSocket.parse C f with
      | .ok message =>
        let r := readLoop C rest
        ⟨r.outcome, message :: r.delivered, pongSent ++ r.sent⟩
      | .error _ =>
        let r := readLoop C rest
        ⟨r.outcome, r.delivered, pongSent ++ r.sent⟩

/-- `WebSocket::do_connect`: the handshake (`connect_async`) followed by the
read loop. A failed handshake is `ConnectionError`. -/
def WebSocket.do_connect (C : Collab S N Cv) (handshakeOk : Bool)
    (events : List ReadEvent) : SessionRun S N Cv :=
  if handshakeOk then readLoop C events
  else ⟨some (.error .ConnectionError), [], []⟩

/-- Observable trace of one `WebSocket::connect` invocation that returned:
how many sessions were attempted, how many tokio `Runtime::new()` calls
were made, and the sleeps (ms) performed between attempts, in order. -/
structure ConnectTrace where
  attempts : Nat
  runtimes : Nat
  sleeps : List Nat
deriving DecidableEq, Repr

/-- `WebSocket::connect` (source lines 111–133), run on a script giving the
outcome of each successive session. Each loop iteration constructs a fresh
`Runtime::new()` and blocks on one session: `Ok(())` returns; every
`InnerKind` sleeps `RECONNECT_INTERVAL` ms and continues. `none` means the
script was exhausted with the loop still running. -/
def WebSocket.connect : List (Except InnerKind Unit) → Option ConnectTrace
  | [] => none
  | .ok () :: _ => some ⟨1, 1, []⟩
  | .error _ :: rest =>
    match WebSocket.connect rest with
    | none => none
    | some t => some ⟨t.attempts + 1, t.runtimes + 1, RECONNECT_INTERVAL :: t.sleeps⟩

/-- The query-parameter list assembled by `Streaming::listen` for
`WebSocket` (source lines 206–213): `stream=<stream>`, then
`access_token=<token>` when present, then the caller's raw params verbatim. -/
def WebSocket.listenParams (ws : WebSocket) : List String :=
  let parameter := ["stream=" ++ ws.stream]
  let parameter :=
    match ws.access_token with
    | some access_token => parameter ++ ["access_token=" ++ access_token]
    | none => parameter
  match ws.params with
  | some params => parameter ++ params
  | none => parameter

/-- The URL `Streaming::listen` connects to (source lines 214–215):
`self.url + "?" + parameter.join("&")`. -/
def WebSocket.listenUrl (ws : WebSocket) : String :=
  ws.url ++ "?" ++ String.intercalate "&" ws.listenParams

/-- Modelled from the spec: the URL-construction formula of §6,
`base_url + "?" + join("&", params)` with `params` being `stream=<name>`,
then `access_token=<token>` when present, then the caller-supplied extra
parameter strings verbatim in order. Used only to compare against
`WebSocket.listenUrl`. -/
def specUrl (base streamName : String) (extra : Option (List String))
    (token : Option String) : String :=
  let params :=
    ["stream=" ++ streamName]
      ++ (match token with | some t => ["access_token=" ++ t] | none => [])
      ++ (match extra with | some es => es | none => [])
  base ++ "?" ++ String.intercalate "&" params

/-- A small concrete collaborator instance, used to exhibit concrete runs
of the decoder and of the session loop. -/
def demoCollab : Collab String String String where
  fromStrRaw := fun t =>
    if t = "DEL" then .ok ⟨"delete", "123"⟩
    else if t = "UPD" then .ok ⟨"update", "S"⟩
    else if t = "NOTE" then .ok ⟨"notification", "N"⟩
    else if t = "CONV" then .ok ⟨"conversation", "V"⟩
    else if t = "BOGUS" then .ok ⟨"bogus", "x"⟩
    else if t = "UPDBAD" then .ok ⟨"update", "junk"⟩
    else .error "envelope decode failed"
  fromStrStatus := fun p =>
    if p = "S" then .ok "status-entity" else .error "status decode failed"
  fromStrNotification := fun p =>
    if p = "N" then .ok "notif-entity" else .error "notif decode failed"
  fromStrConversation := fun p =>
    if p = "V" then .ok "conv-entity" else .error "conv decode failed"

section ParseLemmas

variable {S N Cv : Type} (C : Collab S N Cv)

/-- `parse` on a text frame whose envelope decode fails. -/
lemma parse_text_raw_error (t e : String) (h : C.fromStrRaw t = .error e) :
    WebSocket.parse C (.text t) = .error (Error.fromSerde e) := by
  simp [WebSocket.parse, WSFrame.is_ping, WSFrame.is_pong, h]

/-- `parse` on a text frame whose envelope decodes with an unrecognized tag. -/
lemma parse_text_unknown_tag (t : String) (mes : RawMessage)
    (h : C.fromStrRaw t = .ok mes)
    (hne : mes.event ∉ (["update", "notification", "conversation", "delete"] :
      List String)) :
    WebSocket.parse C (.text t)
      = .error (Error.new_own ("Unknown event is received: " ++ mes.event)
          Kind.ParseError) := by
  simp only [List.mem_cons, List.not_mem_nil, or_false, not_or] at hne
  obtain ⟨h1, h2, h3, h4⟩ := hne
  simp [WebSocket.parse, WSFrame.is_ping, WSFrame.is_pong, h, h1, h2, h3, h4]

/-- `parse` dispatch for the `update` tag. -/
lemma parse_text_update (t : String) (mes : RawMessage)
    (h : C.fromStrRaw t = .ok mes) (hev : mes.event = "update") :
    WebSocket.parse C (.text t)
      = match C.fromStrStatus mes.payload with
        | .error e => .error (Error.fromSerde e)
        | .ok res => .ok (.Update res) := by
  simp [WebSocket.parse, WSFrame.is_ping, WSFrame.is_pong, h, hev]

/-- `parse` dispatch for the `notification` tag. -/
lemma parse_text_notification (t : String) (mes : RawMessage)
    (h : C.fromStrRaw t = .ok mes) (hev : mes.event = "notification") :
    WebSocket.parse C (.text t)
      = match C.fromStrNotification mes.payload with
        | .error e => .error (Error.fromSerde e)
        | .ok res => .ok (.Notification res) := by
  simp [WebSocket.parse, WSFrame.is_ping, WSFrame.is_pong, h, hev]

/-- `parse` dispatch for the `conversation` tag. -/
lemma parse_text_conversation (t : String) (mes : RawMessage)
    (h : C.fromStrRaw t = .ok mes) (hev : mes.event = "conversation") :
    WebSocket.parse C (.text t)
      = match C.fromStrConversation mes.payload with
        | .error e => .error (Error.fromSerde e)
        | .ok res => .ok (.Conversation res) := by
  simp [WebSocket.parse, WSFrame.is_ping, WSFrame.is_pong, h, hev]

/-- `parse` dispatch for the `delete` tag. -/
lemma parse_text_delete (t : String) (mes : RawMessage)
    (h : C.fromStrRaw t = .ok mes) (hev : mes.event = "delete") :
    WebSocket.parse C (.text t) = .ok (.Delete mes.payload) := by
  simp [WebSocket.parse, WSFrame.is_ping, WSFrame.is_pong, h, hev]

/-- `parse` on a binary frame. -/
lemma parse_binary (d : List Nat) :
    WebSocket.parse C (.binary d)
      = .error (Error.new_own "Receiving message is not ping, pong or text"
          Kind.ParseError) := by
  simp [WebSocket.parse, WSFrame.is_ping, WSFrame.is_pong]

/-- `parse` on a close frame (the session loop never reaches this case,
but `parse` itself classifies it as a parse error). -/
lemma parse_close (oc : Option Nat) :
    WebSocket.parse C (.close oc)
      = .error (Error.new_own "Receiving message is not ping, pong or text"
          Kind.ParseError) := by
  simp [WebSocket.parse, WSFrame.is_ping, WSFrame.is_pong]

/-- `parse` on ping and pong frames. -/
lemma parse_ping_pong (p : List Nat) :
    WebSocket.parse C (.ping p) = .ok .Heartbeat ∧
    WebSocket.parse C (.pong p) = .ok .Heartbeat := by
  constructor <;> simp [WebSocket.parse, WSFrame.is_ping, WSFrame.is_pong]

/-- A frame on which `parse` fails is neither a ping nor a pong. -/
lemma parse_error_not_ping {f : WSFrame} {e : Error}
    (he : WebSocket.parse C f = .error e) :
    f.is_ping = false ∧ f.is_pong = false := by
  cases f <;>
    first
      | exact ⟨rfl, rfl⟩
      | (exfalso; simp [WebSocket.parse, WSFrame.is_ping, WSFrame.is_pong] at he)

end ParseLemmas

/-- C5: for every well-formed text-frame envelope whose event tag is
`"delete"`, `parse` returns `Delete` carrying the envelope's payload string
verbatim — the payload is never run through any further decoder, and the
resulting identifier is the payload string exactly. -/
theorem delete_payload_verbatim {S N Cv : Type} (C : Collab S N Cv)
    (t p : String) (h : C.fromStrRaw t = .ok ⟨"delete", p⟩) :
    WebSocket.parse C (.text t) = .ok (.Delete p) :=
  parse_text_delete C t ⟨"delete", p⟩ h rfl

/-- Witness for C5 at a concrete envelope: tag `"delete"`, payload `"123"`. -/
theorem delete_payload_verbatim_witness :
    demoCollab.fromStrRaw "DEL" = .ok ⟨"delete", "123"⟩ ∧
    WebSocket.parse demoCollab (.text "DEL") = .ok (.Delete "123") :=
  ⟨rfl, delete_payload_verbatim demoCollab "DEL" "123" rfl⟩

/-- C4: every ping or pong frame decodes to `Heartbeat` without the payload
being inspected (the theorem holds for every payload and every collaborator),
and in the session's read loop a ping frame falls through to `parse`, so the
sink is invoked with `Heartbeat` for it (right after the best-effort empty
pong reply is attempted). -/
theorem ping_pong_heartbeat {S N Cv : Type} (C : Collab S N Cv)
    (p q : List Nat) (b : Bool) (rest : List ReadEvent) :
    WebSocket.parse C (.ping p) = .ok .Heartbeat ∧
    WebSocket.parse C (.pong q) = .ok .Heartbeat ∧
    readLoop C (.frame (.ping p) b :: rest)
      = ⟨(readLoop C rest).outcome,
         .Heartbeat :: (readLoop C rest).delivered,
         .pong [] :: (readLoop C rest).sent⟩ := by
  refine ⟨(parse_ping_pong C p).1, (parse_ping_pong C q).2, ?_⟩
  simp [readLoop, WSFrame.is_ping, WSFrame.is_close, WebSocket.parse,
    WSFrame.is_pong]

/-- C7: the URL built by `listen` is the base URL, `"?"`, then the
`"&"`-joined parameters: `stream=<name>`, `access_token=<token>` when a
token is present, then the extra parameter strings verbatim in the given
order — equal to the spec's formula for every endpoint configuration, and
evaluated on the spec's two concrete examples. -/
theorem listen_url_construction :
    (∀ ws : WebSocket,
       ws.listenUrl = specUrl ws.url ws.stream ws.params ws.access_token) ∧
    WebSocket.listenUrl ⟨"wss://x/api", "user", none, some "tok"⟩
      = "wss://x/api?stream=user&access_token=tok" ∧
    WebSocket.listenUrl ⟨"wss://x/api", "user", some ["foo=bar"], some "tok"⟩
      = "wss://x/api?stream=user&access_token=tok&foo=bar" := by
  refine ⟨?_, rfl, rfl⟩
  intro ws
  obtain ⟨u, s, ps, tok⟩ := ws
  cases ps <;> cases tok <;>
    simp [WebSocket.listenUrl, WebSocket.listenParams, specUrl]

/-- Every send the read loop ever attempts is an empty-payload pong or a
close acknowledgement. -/
lemma readLoop_sent_mem {S N Cv : Type} (C : Collab S N Cv) :
    ∀ (events : List ReadEvent) (a : SendAction),
      a ∈ (readLoop C events).sent → a = .pong [] ∨ a = .closeAck := by
  intro events
  induction events with
  | nil => intro a h; simp [readLoop] at h
  | cons e rest ih =>
    intro a h
    cases e with
    | timeout => simp [readLoop] at h
    | streamEnd => exact ih a h
    | readError => simp [readLoop] at h
    | frame f b =>
      cases f with
      | text s =>
        cases hp : WebSocket.parse C (.text s) with
        | ok m =>
          simp [readLoop, WSFrame.is_ping, WSFrame.is_close, hp] at h
          exact ih a h
        | error e' =>
          simp [readLoop, WSFrame.is_ping, WSFrame.is_close, hp] at h
          exact ih a h
      | binary d =>
        simp [readLoop, WSFrame.is_ping, WSFrame.is_close, parse_binary] at h
        exact ih a h
      | ping p =>
        simp [readLoop, WSFrame.is_ping, WSFrame.is_close,
          WebSocket.parse, WSFrame.is_pong] at h
        rcases h with h | h
        · exact Or.inl h
        · exact ih a h
      | pong p =>
        simp [readLoop, WSFrame.is_ping, WSFrame.is_close,
          WebSocket.parse, WSFrame.is_pong] at h
        exact ih a h
      | close oc =>
        cases oc with
        | none =>
          simp [readLoop, WSFrame.is_ping, WSFrame.is_close] at h
          exact Or.inr h
        | some code =>
          by_cases hc : code = CloseCode.Normal
        <;> simp [readLoop, WSFrame.is_ping, WSFrame.is_close, hc] at h
        <;> exact Or.inr h

/-- C2: a close control frame ends the session: a status code other than
1000 yields the retryable `UnusualSocketCloseError` outcome, code 1000 or an
absent code yields a clean stop; the close acknowledgement is attempted in
every case, and the environment's answer to that best-effort send (the
`sendOk` flag) never changes the result. -/
theorem close_frame_ends_session {S N Cv : Type} (C : Collab S N Cv)
    (b : Bool) (rest : List ReadEvent) :
    (∀ code : Nat, code ≠ CloseCode.Normal →
       readLoop C (.frame (.close (some code)) b :: rest)
         = ⟨some (.error .UnusualSocketCloseError), [], [.closeAck]⟩) ∧
    (readLoop C (.frame (.close (some CloseCode.Normal)) b :: rest)
       = ⟨some (.ok ()), [], [.closeAck]⟩) ∧
    (readLoop C (.frame (.close none) b :: rest)
       = ⟨some (.ok ()), [], [.closeAck]⟩) ∧
    (∀ oc : Option Nat,
       readLoop C (.frame (.close oc) true :: rest)
         = readLoop C (.frame (.close oc) false :: rest)) := by
  refine ⟨?_, ?_, ?_, ?_⟩
  · intro code hc
    simp [readLoop, WSFrame.is_ping, WSFrame.is_close, hc]
  · simp [readLoop, WSFrame.is_ping, WSFrame.is_close]
  · simp [readLoop, WSFrame.is_ping, WSFrame.is_close]
  · intro oc
    rfl

/-- Witness for C2 at code 1011 on a concrete run. -/
theorem close_frame_ends_session_witness :
    readLoop demoCollab [.frame (.close (some 1011)) true]
      = ⟨some (.error .UnusualSocketCloseError), [], [.closeAck]⟩ :=
  (close_frame_ends_session demoCollab true []).1 1011 (by decide)

/-- C3: a decode failure never ends the session — the read loop's result on
a frame that fails to decode (and is not a close frame, which is handled
before decoding) is exactly its result on the remaining script: same
outcome, same sink calls, same sends; consequently a later well-formed
frame on the same connection still decodes and reaches the sink. The
outcome type (`Except InnerKind Unit`) has no parse-failure inhabitant, so
`ParseFailure` can neither be a session outcome nor a sink argument. -/
theorem parse_failure_never_fatal {S N Cv : Type} (C : Collab S N Cv)
    (f : WSFrame) (b : Bool) (rest : List ReadEvent)
    (hclose : f.is_close = false)
    (hfail : ∃ e, WebSocket.parse C f = .error e) :
    readLoop C (.frame f b :: rest) = readLoop C rest ∧
    ∀ (g : WSFrame) (b' : Bool) (m : Message S N Cv),
      WebSocket.parse C g = .ok m → g.is_close = false →
      (readLoop C (.frame f b :: .frame g b' :: rest)).delivered
        = m :: (readLoop C rest).delivered := by
  obtain ⟨e, he⟩ := hfail
  obtain ⟨hping, -⟩ := parse_error_not_ping C he
  have hmain : ∀ rest' : List ReadEvent,
      readLoop C (.frame f b :: rest') = readLoop C rest' := by
    intro rest'
    simp [readLoop, hping, hclose, he]
  refine ⟨hmain rest, ?_⟩
  intro g b' m hg hgclose
  rw [hmain (.frame g b' :: rest)]
  simp [readLoop, hgclose, hg]

/-- Witness for C3: a malformed envelope is skipped and the following
well-formed `delete` frame still reaches the sink. -/
theorem parse_failure_never_fatal_witness :
    (readLoop demoCollab
        [.frame (.text "BAD") true, .frame (.text "DEL") false]).delivered
      = Message.Delete "123"
          :: (readLoop demoCollab ([] : List ReadEvent)).delivered :=
  (parse_failure_never_fatal demoCollab (.text "BAD") true [] rfl
      ⟨Error.fromSerde "envelope decode failed", rfl⟩).2
    (.text "DEL") false (Message.Delete "123") rfl rfl

/-- C10: the pong replies sent by the read loop always carry an empty
payload: processing a ping frame with any payload sends `pong []`, and no
send action of any run is a pong with a non-empty payload. -/
theorem pong_reply_empty_payload {S N Cv : Type} (C : Collab S N Cv) :
    (∀ (p : List Nat) (b : Bool) (rest : List ReadEvent),
       (readLoop C (.frame (.ping p) b :: rest)).sent
         = .pong [] :: (readLoop C rest).sent) ∧
    (∀ (events : List ReadEvent) (pl : List Nat),
       SendAction.pong pl ∈ (readLoop C events).sent → pl = []) := by
  constructor
  · intro p b rest
    simp [readLoop, WSFrame.is_ping, WSFrame.is_close, WebSocket.parse,
      WSFrame.is_pong]
  · intro events pl h
    rcases readLoop_sent_mem C events (.pong pl) h with h' | h'
    · exact congrArg
        (fun a => match a with | SendAction.pong q => q | _ => pl) h'
    · exact absurd h' (by simp)

/-- Witness for C10: a ping with payload `[1, 2, 3]` is answered with an
empty pong. -/
theorem pong_reply_empty_payload_witness :
    (readLoop demoCollab [.frame (.ping [1, 2, 3]) true]).sent
      = .pong [] :: (readLoop demoCollab ([] : List ReadEvent)).sent :=
  (pong_reply_empty_payload demoCollab).1 [1, 2, 3] true []

/-- The frames the read loop hands to the decoder, in arrival order: all
frames up to (and excluding) the first session-ending event of the script
(a timeout, a read error, or a close frame). -/
def framesBeforeEnd : List ReadEvent → List WSFrame
  | [] => []
  | .timeout :: _ => []
  | .readError :: _ => []
  | .streamEnd :: rest => framesBeforeEnd rest
  | .frame f _ :: rest => if f.is_close then [] else f :: framesBeforeEnd rest

/-- A close frame never contributes a sink call. -/
lemma readLoop_close_delivered {S N Cv : Type} (C : Collab S N Cv)
    (oc : Option Nat) (b : Bool) (rest : List ReadEvent) :
    (readLoop C (.frame (.close oc) b :: rest)).delivered = [] := by
  cases oc with
  | none => simp [readLoop, WSFrame.is_ping, WSFrame.is_close]
  | some code =>
    by_cases hc : code = CloseCode.Normal <;>
      simp [readLoop, WSFrame.is_ping, WSFrame.is_close, hc]

/-- Sink calls contributed by a non-close frame: exactly the decoded event
when decoding succeeds, nothing when it fails. -/
lemma readLoop_frame_delivered {S N Cv : Type} (C : Collab S N Cv)
    {f : WSFrame} (hc : f.is_close = false) (b : Bool)
    (rest : List ReadEvent) :
    (readLoop C (.frame f b :: rest)).delivered
      = match WebSocket.parse C f with
        | .ok m => m :: (readLoop C rest).delivered
        | .error _ => (readLoop C rest).delivered := by
  cases hp : WebSocket.parse C f <;> simp [readLoop, hc, hp]

/-- C8: the sink is called exactly once per successfully decoded frame,
in arrival order, within the read loop: the delivered sequence of any run
equals the in-order `filterMap` of the decoder over the frames received
before the session ended — no event is dropped, duplicated, buffered or
reordered. -/
theorem sink_called_in_order {S N Cv : Type} (C : Collab S N Cv)
    (events : List ReadEvent) :
    (readLoop C events).delivered
      = (framesBeforeEnd events).filterMap
          (fun f => (WebSocket.parse C f).toOption) := by
  induction events with
  | nil => rfl
  | cons e rest ih =>
    cases e with
    | timeout => rfl
    | readError => rfl
    | streamEnd => simpa [framesBeforeEnd] using ih
    | frame f b =>
      by_cases hc : f.is_close = true
      · obtain ⟨oc, rfl⟩ : ∃ oc, f = .close oc := by
          cases f <;> first | exact ⟨_, rfl⟩ | simp [WSFrame.is_close] at hc
        simp [framesBeforeEnd, WSFrame.is_close, readLoop_close_delivered]
      · have hc' : f.is_close = false := by simpa using hc
        rw [readLoop_frame_delivered C hc' b rest]
        cases hp : WebSocket.parse C f <;>
          simp [framesBeforeEnd, hc', hp, ih, Except.toOption]

/-- C1: the supervisor loop returns only when a session ends cleanly —
on a script with no clean stop it never returns — and on every retryable
outcome (any of the four `InnerKind`s) it sleeps exactly
`RECONNECT_INTERVAL` (5000 ms) and starts a new session unconditionally:
for every finite sequence of failures, of any length and any kinds, the
loop performs one attempt per failure plus the final clean one, with a
fixed 5000 ms sleep between consecutive attempts. -/
theorem connect_retry_policy :
    (∀ outcomes : List (Except InnerKind Unit),
       WebSocket.connect outcomes = none ↔ Except.ok () ∉ outcomes) ∧
    (∀ (ks : List InnerKind) (rest : List (Except InnerKind Unit)),
       WebSocket.connect (ks.map Except.error ++ Except.ok () :: rest)
         = some ⟨ks.length + 1, ks.length + 1,
             List.replicate ks.length RECONNECT_INTERVAL⟩) := by
  constructor
  · intro outcomes
    induction outcomes with
    | nil => simp [WebSocket.connect]
    | cons o rest ih =>
      cases o with
      | ok u =>
        cases u
        simp [WebSocket.connect]
      | error k =>
        have hstep : WebSocket.connect (Except.error k :: rest) = none
            ↔ WebSocket.connect rest = none := by
          cases hct : WebSocket.connect rest <;>
            simp [WebSocket.connect, hct]
        rw [hstep, ih]
        simp
  · intro ks
    induction ks with
    | nil => intro rest; simp [WebSocket.connect]
    | cons k ks ih =>
      intro rest
      simp [WebSocket.connect, ih rest, List.replicate_succ]

/-- Witness for C1 on a concrete script: one connection failure, then a
clean stop — two attempts with one 5000 ms sleep in between. -/
theorem connect_retry_policy_witness :
    WebSocket.connect [Except.error .ConnectionError, Except.ok ()]
      = some ⟨2, 2, [RECONNECT_INTERVAL]⟩ := by
  have h := connect_retry_policy.2 [InnerKind.ConnectionError] []
  simpa using h

/-- C9 as stated is false: on the two-attempt run (one connection failure,
then a clean stop) the loop constructs two tokio runtimes, not one —
`Runtime::new()` sits inside the loop body, so one runtime is built per
attempt. -/
theorem runtime_reuse_counterexample :
    (WebSocket.connect [Except.error .ConnectionError, Except.ok ()]).map
        ConnectTrace.runtimes = some 2 ∧ (2 : Nat) ≠ 1 :=
  ⟨rfl, by decide⟩

/-- C9 amended: a fresh runtime is constructed for every connection
attempt — in every terminating run of the supervisor loop, the number of
`Runtime::new()` constructions equals the number of session attempts. -/
theorem runtime_per_attempt (outcomes : List (Except InnerKind Unit))
    (t : ConnectTrace) (h : WebSocket.connect outcomes = some t) :
    t.runtimes = t.attempts := by
  induction outcomes generalizing t with
  | nil => simp [WebSocket.connect] at h
  | cons o rest ih =>
    cases o with
    | ok u =>
      cases u
      simp [WebSocket.connect] at h
      rw [← h]
    | error k =>
      cases hct : WebSocket.connect rest with
      | none => simp [WebSocket.connect, hct] at h
      | some t' =>
        simp [WebSocket.connect, hct] at h
        rw [← h]
        simpa using ih t' hct

/-- Witness for C9's amended statement on the two-attempt run. -/
theorem runtime_per_attempt_witness :
    (⟨2, 2, [RECONNECT_INTERVAL]⟩ : ConnectTrace).runtimes
      = (⟨2, 2, [RECONNECT_INTERVAL]⟩ : ConnectTrace).attempts :=
  runtime_per_attempt [Except.error .ConnectionError, Except.ok ()] _ rfl

/-- The situations in which decoding must fail, per spec §4.3/§8: a text
frame whose envelope decode fails, a well-formed envelope with an
unrecognized tag, an entity decode failure under the `update` /
`notification` / `conversation` tags, or a frame that is neither a
ping/pong control frame nor a text frame. -/
def parseFailureCase {S N Cv : Type} (C : Collab S N Cv) (f : WSFrame) :
    Prop :=
  (∃ t, f = .text t ∧
    ((∃ e, C.fromStrRaw t = .error e) ∨
     (∃ mes, C.fromStrRaw t = .ok mes ∧
       (mes.event ∉ (["update", "notification", "conversation", "delete"] :
           List String) ∨
        (mes.event = "update" ∧
          ∃ e, C.fromStrStatus mes.payload = .error e) ∨
        (mes.event = "notification" ∧
          ∃ e, C.fromStrNotification mes.payload = .error e) ∨
        (mes.event = "conversation" ∧
          ∃ e, C.fromStrConversation mes.payload = .error e))))) ∨
  (f.is_ping = false ∧ f.is_pong = false ∧ f.is_text = false)

/-- Failure characterization of `parse` on a text frame. -/
lemma parse_text_error_iff {S N Cv : Type} (C : Collab S N Cv) (t : String) :
    (∃ e, WebSocket.parse C (.text t) = .error e) ↔
    ((∃ e, C.fromStrRaw t = .error e) ∨
     (∃ mes, C.fromStrRaw t = .ok mes ∧
       (mes.event ∉ (["update", "notification", "conversation", "delete"] :
           List String) ∨
        (mes.event = "update" ∧
          ∃ e, C.fromStrStatus mes.payload = .error e) ∨
        (mes.event = "notification" ∧
          ∃ e, C.fromStrNotification mes.payload = .error e) ∨
        (mes.event = "conversation" ∧
          ∃ e, C.fromStrConversation mes.payload = .error e)))) := by
  constructor
  · rintro ⟨e, he⟩
    cases hr : C.fromStrRaw t with
    | error e' => exact Or.inl ⟨e', rfl⟩
    | ok mes =>
      by_cases h1 : mes.event = "update"
      · rw [parse_text_update C t mes hr h1] at he
        cases hs : C.fromStrStatus mes.payload with
        | error e2 => exact Or.inr ⟨mes, rfl, Or.inr (Or.inl ⟨h1, e2, hs⟩)⟩
        | ok res => simp [hs] at he
      · by_cases h2 : mes.event = "notification"
        · rw [parse_text_notification C t mes hr h2] at he
          cases hs : C.fromStrNotification mes.payload with
          | error e2 =>
            exact Or.inr ⟨mes, rfl, Or.inr (Or.inr (Or.inl ⟨h2, e2, hs⟩))⟩
          | ok res => simp [hs] at he
        · by_cases h3 : mes.event = "conversation"
          · rw [parse_text_conversation C t mes hr h3] at he
            cases hs : C.fromStrConversation mes.payload with
            | error e2 =>
              exact Or.inr ⟨mes, rfl, Or.inr (Or.inr (Or.inr ⟨h3, e2, hs⟩))⟩
            | ok res => simp [hs] at he
          · by_cases h4 : mes.event = "delete"
            · rw [parse_text_delete C t mes hr h4] at he
              simp at he
            · exact Or.inr ⟨mes, rfl, Or.inl (by simp [h1, h2, h3, h4])⟩
  · rintro (⟨e, he⟩ | ⟨mes, hr, hcase⟩)
    · exact ⟨Error.fromSerde e, parse_text_raw_error C t e he⟩
    · rcases hcase with hno | ⟨h1, e, hs⟩ | ⟨h2, e, hs⟩ | ⟨h3, e, hs⟩
      · exact ⟨_, parse_text_unknown_tag C t mes hr hno⟩
      · refine ⟨Error.fromSerde e, ?_⟩
        rw [parse_text_update C t mes hr h1, hs]
      · refine ⟨Error.fromSerde e, ?_⟩
        rw [parse_text_notification C t mes hr h2, hs]
      · refine ⟨Error.fromSerde e, ?_⟩
        rw [parse_text_conversation C t mes hr h3, hs]

/-- C6: `parse` fails exactly when a text frame's envelope decode fails,
when a well-formed envelope carries a tag other than `update` /
`notification` / `conversation` / `delete`, when the entity decode under
one of the first three tags fails, or when the frame is neither a
ping/pong control frame nor a text frame; furthermore an unrecognized tag
is named in the failure message. -/
theorem parse_failure_exactly {S N Cv : Type} (C : Collab S N Cv) :
    (∀ f : WSFrame,
       (∃ e, WebSocket.parse C f = .error e) ↔ parseFailureCase C f) ∧
    (∀ (t : String) (mes : RawMessage), C.fromStrRaw t = .ok mes →
       mes.event ∉ (["update", "notification", "conversation", "delete"] :
           List String) →
       WebSocket.parse C (.text t)
         = .error ⟨"Unknown event is received: " ++ mes.event,
             Kind.ParseError⟩) := by
  constructor
  · intro f
    cases f with
    | text t =>
      rw [parse_text_error_iff]
      constructor
      · intro h
        exact Or.inl ⟨t, rfl, h⟩
      · rintro (⟨t', heq, hD⟩ | ⟨-, -, htext⟩)
        · cases heq
          exact hD
        · simp [WSFrame.is_text] at htext
    | binary d =>
      simp [parse_binary, parseFailureCase, WSFrame.is_ping, WSFrame.is_pong,
        WSFrame.is_text]
    | ping p =>
      simp [parse_ping_pong, parseFailureCase, WSFrame.is_ping,
        WSFrame.is_pong, WSFrame.is_text, WebSocket.parse]
    | pong p =>
      simp [parseFailureCase, WSFrame.is_ping, WSFrame.is_pong,
        WSFrame.is_text, WebSocket.parse]
    | close oc =>
      simp [parse_close, parseFailureCase, WSFrame.is_ping, WSFrame.is_pong,
        WSFrame.is_text]
  · intro t mes hr hno
    exact parse_text_unknown_tag C t mes hr hno

/-- Witness for C6: the tag `"bogus"` is rejected with a failure naming
it. -/
theorem parse_failure_exactly_witness :
    WebSocket.parse demoCollab (.text "BOGUS")
      = .error ⟨"Unknown event is received: " ++ "bogus", Kind.ParseError⟩ :=
  (parse_failure_exactly demoCollab).2 "BOGUS" ⟨"bogus", "x"⟩ rfl (by decide)

end Megalodon
